import Mathlib

/-!
# Verification of the data-pipeline handler

Shallow embedding of `src/data-pipeline-project/src/index.py` and proofs of the
specified properties of its sync, analysis and dispatch operations.

Modelling conventions:
* pandas/JSON numeric values are embedded as exact rationals (`ℚ`); the claims
  under study are about which records are aggregated and how, not about
  floating-point rounding.
* pandas `NaN` results (mean of an empty column, sample std with fewer than two
  observations) are embedded as `none`.
* The S3 object store, the SQS queue and the HTTP origins are external
  collaborators; their responses are passed to the embedded operations as
  explicit arguments, and the operations return the actions they performed.
-/

/-- One row of the BLS time-series table (`pr.data.0.Current` parsed by
`pd.read_csv`): columns `series_id`, `year`, `period`, `value`. -/
structure TSRecord where
  series_id : String
  year : Int
  period : String
  value : ℚ
deriving DecidableEq, Repr

/-- One element of the population JSON array (`pd.DataFrame(pop_data)`):
fields `year` and `population`. -/
structure PopRecord where
  year : Int
  population : ℚ
deriving DecidableEq, Repr

/-! ## Analysis 1: population statistics

`pop_df[(pop_df['year'] >= 2013) & (pop_df['year'] <= 2018)]['population'].agg(['mean', 'std'])`.
pandas `mean` of an empty selection is `NaN` (here `none`); `std` uses the
sample estimator (`ddof=1`), which is `NaN` for fewer than two observations.
The reported std is the square root of `sampleVar` below, so it is `NaN`
exactly when `sampleVar` is `none`. -/

/-- The boolean mask `(year >= 2013) & (year <= 2018)` of `analyze_data`. -/
def inWindow (r : PopRecord) : Bool :=
  decide (2013 ≤ r.year) && decide (r.year ≤ 2018)

/-- pandas column mean: `NaN` (`none`) on an empty column. -/
def listMean (xs : List ℚ) : Option ℚ :=
  if xs.length = 0 then none else some (xs.sum / xs.length)

/-- pandas sample variance (`std` is its square root, `ddof=1`): `NaN` (`none`)
with fewer than two observations. -/
def listSampleVar (xs : List ℚ) : Option ℚ :=
  if xs.length < 2 then none
  else some ((xs.map (fun x => (x - xs.sum / xs.length) ^ 2)).sum / ((xs.length : ℚ) - 1))

/-- The `mean`/`std` aggregate of `analyze_data`; `sampleVar` is the square of
the reported standard deviation. -/
structure PopStats where
  mean : Option ℚ
  sampleVar : Option ℚ
deriving DecidableEq, Repr

/-- Analysis 1 of `analyze_data`: window the population frame to the years
2013–2018 and aggregate mean and (sample) std of `population`. -/
def population_stats (pop : List PopRecord) : PopStats :=
  let xs := (pop.filter inWindow).map PopRecord.population
  ⟨listMean xs, listSampleVar xs⟩

/-! ## The "Clean data" step

`bls_df = bls_df.apply(lambda x: x.str.strip() if isinstance(x, str) else x)`.
`DataFrame.apply` hands each *column* (a `Series` object) to the lambda; a
`Series` is never a Python `str`, so the `isinstance` test is false on every
column and each column is returned unchanged. We embed the frame's columns, the
`isinstance` test and both branches of the lambda, then reassemble rows. -/

/-- A column of the BLS frame as handed to the lambda by `DataFrame.apply`. -/
inductive BlsColumn
  | strCol (vals : List String)
  | intCol (vals : List Int)
  | ratCol (vals : List ℚ)
deriving DecidableEq, Repr

/-- `isinstance(x, str)` where `x` is a column object (a pandas `Series`,
never a Python `str`): false for every column. -/
def isinstance_str (_ : BlsColumn) : Bool := false

/-- The whitespace characters Python `str.strip` removes by default. -/
def isPyWhitespace (c : Char) : Bool :=
  c == ' ' || c == '\t' || c == '\n' || c == '\r' || c == '\x0b' || c == '\x0c'

/-- Python `str.strip()`: drop leading and trailing whitespace. -/
def pyStrip (s : String) : String :=
  String.mk (((s.data.dropWhile isPyWhitespace).reverse.dropWhile isPyWhitespace).reverse)

/-- `x.str.strip()`: Python `str.strip` applied to every entry of a string
column (identity on non-string columns). -/
def stripColumn : BlsColumn → BlsColumn
  | .strCol vs => .strCol (vs.map pyStrip)
  | c => c

/-- The lambda of the clean step: `x.str.strip() if isinstance(x, str) else x`. -/
def cleanColumn (x : BlsColumn) : BlsColumn :=
  if isinstance_str x then stripColumn x else x

/-- The columns of the BLS frame, in column order of `pr.data.0.Current`. -/
def toColumns (rows : List TSRecord) : List BlsColumn :=
  [.strCol (rows.map TSRecord.series_id), .intCol (rows.map TSRecord.year),
   .strCol (rows.map TSRecord.period), .ratCol (rows.map TSRecord.value)]

/-- Reassemble rows from the four columns (zipping them positionally). -/
def fromColumns : List String → List Int → List String → List ℚ → List TSRecord
  | s :: ss, y :: ys, p :: ps, v :: vs => ⟨s, y, p, v⟩ :: fromColumns ss ys ps vs
  | _, _, _, _ => []

/-- The whole clean step: apply `cleanColumn` to every column of the frame and
reassemble the rows. -/
def cleanData (rows : List TSRecord) : List TSRecord :=
  match (toColumns rows).map cleanColumn with
  | [.strCol ss, .intCol ys, .strCol ps, .ratCol vs] => fromColumns ss ys ps vs
  | _ => []

/-! ## Analysis 2: best year per series

`bls_df.groupby(['series_id','year'])['value'].sum().reset_index()
.sort_values('value', ascending=False).groupby('series_id').first()`.
Grouped sums are embedded as a list of `(series_id, year, summed value)`
triples, one per distinct `(series_id, year)` key; `sort_values` (whose
tie order pandas leaves unspecified) is embedded as a sort descending by the
summed value; `.groupby('series_id').first()` picks, per series, the first
row of the sorted frame. -/

/-- The grouping key `['series_id', 'year']`. -/
def rowKey (r : TSRecord) : String × Int := (r.series_id, r.year)

/-- Sum of `value` over the rows of one `(series_id, year)` group. -/
def groupSum (rows : List TSRecord) (k : String × Int) : ℚ :=
  ((rows.filter fun r => rowKey r = k).map TSRecord.value).sum

/-- The distinct `(series_id, year)` keys occurring in the frame. -/
def groupKeys (rows : List TSRecord) : List (String × Int) :=
  (rows.map rowKey).dedup

/-- The grouped-and-summed frame: one `(series_id, year, summed value)` row per
distinct key. -/
def groupSums (rows : List TSRecord) : List (String × Int × ℚ) :=
  (groupKeys rows).map fun k => (k.1, k.2, groupSum rows k)

/-- `sort_values('value', ascending=False)`: value of the left row is at least
the value of the right row. -/
def valGe (a b : String × Int × ℚ) : Prop := b.2.2 ≤ a.2.2

instance : DecidableRel valGe := fun a b => inferInstanceAs (Decidable (b.2.2 ≤ a.2.2))

instance : IsTotal (String × Int × ℚ) valGe :=
  ⟨fun a b => (le_total b.2.2 a.2.2).imp id id⟩

instance : IsTrans (String × Int × ℚ) valGe :=
  ⟨fun _ _ _ h1 h2 => le_trans h2 h1⟩

/-- The grouped sums sorted descending by summed value. -/
def sortedSums (rows : List TSRecord) : List (String × Int × ℚ) :=
  (groupSums rows).insertionSort valGe

/-- Analysis 2 of `analyze_data`: for each distinct `series_id`, the first row
of the value-descending frame belonging to it. -/
def best_years (rows : List TSRecord) : List (String × Int × ℚ) :=
  ((rows.map TSRecord.series_id).dedup).filterMap fun sid =>
    (sortedSums rows).find? fun e => e.1 = sid

/-! ## Analysis 3: combined report

`bls_df[(bls_df['series_id'] == 'PRS30006032') & (bls_df['period'] == 'Q01')]
.merge(pop_df, on='year', how='left')`. A left merge pairs each filtered row
with every population row sharing its `year`; a row with no match is kept once
with the population field `NaN` (embedded as `none`). -/

/-- One row of the merged report: the time-series columns plus the joined
`population` column (absent when no population row shares the year). -/
structure JoinedRow where
  series_id : String
  year : Int
  period : String
  value : ℚ
  population : Option ℚ
deriving DecidableEq, Repr

/-- The filter `(series_id == 'PRS30006032') & (period == 'Q01')`. -/
def combinedFilter (rows : List TSRecord) : List TSRecord :=
  rows.filter fun r => decide (r.series_id = "PRS30006032") && decide (r.period = "Q01")

/-- `merge(pop_df, on='year', how='left')` on the filtered frame. -/
def leftJoinPop (rows : List TSRecord) (pop : List PopRecord) : List JoinedRow :=
  rows.flatMap fun r =>
    match pop.filter (fun p => p.year = r.year) with
    | [] => [⟨r.series_id, r.year, r.period, r.value, none⟩]
    | ms => ms.map fun p => ⟨r.series_id, r.year, r.period, r.value, some p.population⟩

/-- Analysis 3 of `analyze_data`: filter then left-merge on `year`. -/
def combined_report (rows : List TSRecord) (pop : List PopRecord) : List JoinedRow :=
  leftJoinPop (combinedFilter rows) pop

/-- The dictionary returned by `analyze_data`. -/
structure AnalysisOut where
  population_stats : PopStats
  best_years : List (String × Int × ℚ)
  combined_report : List JoinedRow
deriving DecidableEq, Repr

/-- `analyze_data`: load both frames (passed in as parsed records), run the
clean step on the BLS frame, and compute the three analyses. -/
def analyze_data (rows : List TSRecord) (pop : List PopRecord) : AnalysisOut :=
  let bls := cleanData rows
  { population_stats := population_stats pop
    best_years := best_years bls
    combined_report := combined_report bls pop }

/-! ## Sync of the BLS time series (`sync_bls_data`)

The blob stored at `bls/pr.data.0.Current` is modelled as `Option Bytes`
(`none` when the key is absent); `s3.get_object` is modelled by the outcome it
produces: the stored bytes, a `ClientError` with code `NoSuchKey`, or a
`ClientError` with some other code. -/

/-- Raw origin/stored bytes. -/
abbrev Bytes := List Nat

/-- Outcome of `s3.get_object` on the time-series key. -/
inductive GetResult
  | found (b : Bytes)
  | noSuchKey
  | clientError (msg : String)
deriving DecidableEq, Repr

/-- What one invocation decided: whether `put_object` ran and whether
"BLS data is already up to date" was reported. -/
structure SyncStep where
  didWrite : Bool
  upToDate : Bool
deriving DecidableEq, Repr

/-- The body of `sync_bls_data` after the fetch, as a function of the
`get_object` outcome: equal stored bytes → report up to date and return;
`NoSuchKey` → fall through to the write; any other `ClientError` → re-raised;
otherwise overwrite. -/
def sync_bls_step (current_data : Bytes) : GetResult → Except String SyncStep
  | .found b => if b = current_data then .ok ⟨false, true⟩ else .ok ⟨true, false⟩
  | .noSuchKey => .ok ⟨true, false⟩
  | .clientError m => .error m

/-- `get_object` against a healthy store holding `store` at the key. -/
def storeGet : Option Bytes → GetResult
  | some b => .found b
  | none => .noSuchKey

/-- Result of one `sync_bls_data` invocation against a healthy store: the blob
now at the key, the number of `put_object` calls, and whether "already up to
date" was reported. -/
structure SyncOutcome where
  store : Option Bytes
  writes : Nat
  upToDate : Bool
deriving DecidableEq, Repr

/-- One invocation of `sync_bls_data` with fetched bytes `current_data`
against a healthy store whose blob at the key is `store`. -/
def sync_bls_data (current_data : Bytes) (store : Option Bytes) :
    Except String SyncOutcome :=
  (sync_bls_step current_data (storeGet store)).map fun s =>
    ⟨if s.didWrite then some current_data else store,
     if s.didWrite then 1 else 0, s.upToDate⟩

/-- Two successive invocations with the same (unchanged) origin payload. -/
def sync_bls_twice (current_data : Bytes) (store : Option Bytes) :
    Except String (SyncOutcome × SyncOutcome) :=
  match sync_bls_data current_data store with
  | .error m => .error m
  | .ok o1 => (sync_bls_data current_data o1.store).map fun o2 => (o1, o2)

/-! ## Sync of the population data (`fetch_population_data`)

The operation never reads the stored population blob: it fetches, serializes
with `json.dumps`, calls `put_object` unconditionally, and then sends one SQS
message `{type: 'population_update', timestamp: datetime.now().isoformat()}`.
We record the successfully performed side effects as an action trace. -/

/-- A Python `datetime` value as produced by `datetime.now()`. -/
structure DateTime where
  year : Nat
  month : Nat
  day : Nat
  hour : Nat
  minute : Nat
  second : Nat
  microsecond : Nat
deriving DecidableEq, Repr

/-- Left-pad the decimal digits of `n` with zeros to width `w`. -/
def padZeros (w : Nat) (n : Nat) : String :=
  String.mk (List.replicate (w - (toString n).length) '0') ++ toString n

/-- Python `datetime.isoformat()`: `YYYY-MM-DDTHH:MM:SS[.ffffff]`, the
microsecond part omitted when it is zero. -/
def DateTime.isoformat (t : DateTime) : String :=
  padZeros 4 t.year ++ "-" ++ padZeros 2 t.month ++ "-" ++ padZeros 2 t.day ++ "T" ++
    padZeros 2 t.hour ++ ":" ++ padZeros 2 t.minute ++ ":" ++ padZeros 2 t.second ++
    (if t.microsecond = 0 then "" else "." ++ padZeros 6 t.microsecond)

/-- `json.dumps` of one population object. -/
def dumpsPopRecord (r : PopRecord) : String :=
  "\x7b\"year\": " ++ toString r.year ++ ", \"population\": " ++ toString r.population ++ "\x7d"

/-- `json.dumps(data)` for the fetched population array. -/
def dumpsPop (d : List PopRecord) : String :=
  "[" ++ String.intercalate ", " (d.map dumpsPopRecord) ++ "]"

/-- The parsed body of the SQS message sent by `fetch_population_data`. -/
structure SqsMessage where
  type : String
  timestamp : String
deriving DecidableEq, Repr

/-- A side effect successfully performed by `fetch_population_data`. -/
inductive PopAction
  | putPop (body : String)
  | sendMsg (m : SqsMessage)
deriving DecidableEq, Repr

/-- Is the action the SQS notification? -/
def isSendAction : PopAction → Bool
  | .sendMsg _ => true
  | _ => false

/-- `fetch_population_data`: the fetch outcome and the success of the two side
effects are supplied by the collaborators; the result is the trace of
successfully performed actions together with the overall outcome (a raised
exception propagates and aborts the rest of the body). -/
def fetch_population_data (now : DateTime) (fetchRes : Except String (List PopRecord))
    (putOk sendOk : Bool) : List PopAction × Except String Unit :=
  match fetchRes with
  | .error m => ([], .error m)
  | .ok data =>
    if putOk then
      if sendOk then
        ([.putPop (dumpsPop data),
          .sendMsg ⟨"population_update", now.isoformat⟩], .ok ())
      else ([.putPop (dumpsPop data)], .error "sqs send_message failed")
    else ([], .error "s3 put_object failed")

/-! ## The entry point (`lambda_handler`)

The trigger event is modelled by its optional `Records` batch; the outcomes of
the three operations are supplied by the collaborators. The handler catches
every exception raised inside its `try` block and converts it to the 500
envelope. -/

/-- The trigger event: `records = some batch` when the event dict has a
`Records` key (the batch being the value), `none` otherwise. -/
structure Event where
  records : Option (List String)
deriving DecidableEq, Repr

/-- Which path the dispatcher takes. -/
inductive HandlerPath
  | analysis
  | sync
deriving DecidableEq, Repr

/-- `if 'Records' in event`: the key's mere presence selects the path. -/
def dispatchPath (e : Event) : HandlerPath :=
  if e.records.isSome then .analysis else .sync

/-- An operation invoked by `lambda_handler`. -/
inductive Op
  | analyzeOp
  | syncBlsOp
  | fetchPopOp
deriving DecidableEq, Repr

/-- The operations `lambda_handler` invokes, in order (`syncBlsFails` tells
whether `sync_bls_data()` raised, which aborts before `fetch_population_data()`). -/
def invokedOps (e : Event) (syncBlsFails : Bool) : List Op :=
  if e.records.isSome then [.analyzeOp]
  else if syncBlsFails then [.syncBlsOp] else [.syncBlsOp, .fetchPopOp]

/-- The parsed `body` of the handler's response. -/
inductive RespBody
  | result (r : AnalysisOut)
  | message (s : String)
  | errorField (m : String)
deriving DecidableEq, Repr

/-- The response envelope of `lambda_handler`. -/
structure Response where
  statusCode : Nat
  body : RespBody
deriving DecidableEq, Repr

/-- `lambda_handler`: dispatch on the presence of `Records`, run the path, and
wrap the outcome; any exception raised by the invoked operations is caught and
mapped to the 500 envelope with an `error` field. -/
def lambda_handler (e : Event) (analysisRes : Except String AnalysisOut)
    (syncRes popRes : Except String Unit) : Response :=
  if e.records.isSome then
    match analysisRes with
    | .ok r => ⟨200, .result r⟩
    | .error m => ⟨500, .errorField m⟩
  else
    match syncRes with
    | .error m => ⟨500, .errorField m⟩
    | .ok _ =>
      match popRes with
      | .error m => ⟨500, .errorField m⟩
      | .ok _ => ⟨200, .message "Sync completed successfully"⟩

/-! ## Helper lemmas -/

/-- Reassembling the four projected columns of a frame gives back the frame. -/
theorem fromColumns_of_maps : ∀ rows : List TSRecord,
    fromColumns (rows.map TSRecord.series_id) (rows.map TSRecord.year)
      (rows.map TSRecord.period) (rows.map TSRecord.value) = rows
  | [] => rfl
  | _ :: rs => by simp [fromColumns, fromColumns_of_maps rs]

/-- The clean step leaves the frame unchanged: the `isinstance` test is false
on every column, so every column is returned as-is. -/
theorem cleanData_eq_id (rows : List TSRecord) : cleanData rows = rows := by
  simpa [cleanData, toColumns, cleanColumn, isinstance_str] using fromColumns_of_maps rows

/-! ## C1: the normalization step -/

/-- **C1** — the claim fails on the code: the "Clean data" step strips nothing,
because `DataFrame.apply` passes each column (a `Series`, never a `str`) to the
lambda, whose `isinstance(x, str)` test is therefore always false. On the
failing input below the textual fields keep their surrounding whitespace after
cleaning (though Python `str.strip` would change them), and a later
computation (`combined_report`) consequently misses a row whose stripped
fields would have matched the filter. -/
theorem clean_step_strips_nothing_C1 :
    cleanData [⟨"PRS30006032 ", 2020, " Q01", 5⟩] = [⟨"PRS30006032 ", 2020, " Q01", 5⟩]
    ∧ pyStrip "PRS30006032 " = "PRS30006032"
    ∧ pyStrip " Q01" = "Q01"
    ∧ (analyze_data [⟨"PRS30006032", 2020, "Q01 ", 5⟩] [⟨2020, 100⟩]).combined_report = [] := by
  refine ⟨rfl, by decide, by decide, ?_⟩
  simp [analyze_data, cleanData_eq_id, combined_report, combinedFilter, leftJoinPop]

/-! ## C4 and C10: population statistics -/

/-- **C4** — `population_stats` aggregates exactly the population records whose
`year` lies in the closed window [2013, 2018]: removing a record outside the
window from anywhere in the frame leaves the result unchanged; the variance
divisor is `n - 1` (sample estimator: two observations give `(a - b)² / 2`,
not `(a - b)² / 4`, so the reported std is the sample standard deviation); and
on the spec's scenario 4 the 2012 row is excluded and the mean is 200. -/
theorem population_stats_window_C4 :
    (∀ (xs ys : List PopRecord) (r : PopRecord), inWindow r = false →
      population_stats (xs ++ r :: ys) = population_stats (xs ++ ys))
    ∧ (∀ a b : ℚ, (population_stats [⟨2014, a⟩, ⟨2015, b⟩]).sampleVar = some ((a - b) ^ 2 / 2))
    ∧ (population_stats [⟨2012, 100⟩, ⟨2015, 200⟩]).mean = some 200 := by
  refine ⟨?_, ?_, ?_⟩
  · intro xs ys r hr
    simp [population_stats, List.filter_append, hr]
  · intro a b
    norm_num [population_stats, inWindow, listSampleVar, listMean]
    ring_nf
  · norm_num [population_stats, inWindow, listMean]

/-- Witness for C4: dropping the out-of-window 2012 record of scenario 4
leaves `population_stats` unchanged. -/
theorem population_stats_window_C4_witness :
    population_stats [⟨2012, 100⟩, ⟨2015, 200⟩] = population_stats [⟨2015, 200⟩] :=
  population_stats_window_C4.1 [] [⟨2015, 200⟩] ⟨2012, 100⟩ (by decide)

/-- **C10** — when the [2013, 2018] window keeps exactly one record, the mean
is defined (that record's `population`) while the sample standard deviation is
`NaN`: its square, `sampleVar`, divides by `n - 1 = 0` and pandas reports `NaN`
(embedded as `none`), of which the reported std is the square root. -/
theorem population_stats_single_record_C10 (pop : List PopRecord) (r : PopRecord)
    (h : pop.filter inWindow = [r]) :
    (population_stats pop).mean = some r.population
    ∧ (population_stats pop).sampleVar = none := by
  norm_num [population_stats, h, listMean, listSampleVar]

/-- Witness for C10: a frame whose window keeps exactly the single record
`{year: 2015, population: 200}`. -/
theorem population_stats_single_record_C10_witness :
    (population_stats [⟨2012, 100⟩, ⟨2015, 200⟩]).mean = some (200 : ℚ)
    ∧ (population_stats [⟨2012, 100⟩, ⟨2015, 200⟩]).sampleVar = none :=
  population_stats_single_record_C10 [⟨2012, 100⟩, ⟨2015, 200⟩] ⟨2015, 200⟩ (by decide)

/-! ## C2: best year per series -/

/-- In a list sorted descending by summed value, the first row satisfying `p`
has the greatest summed value among all rows satisfying `p`. -/
theorem find?_max_of_sorted {p : String × Int × ℚ → Bool} :
    ∀ {l : List (String × Int × ℚ)} {e : String × Int × ℚ}, l.Sorted valGe →
      l.find? p = some e → ∀ e' ∈ l, p e' = true → e'.2.2 ≤ e.2.2 := by
  intro l
  induction l with
  | nil => intro e _ hf; simp at hf
  | cons a t ih =>
    intro e hs hf e' he' hp
    obtain ⟨ha, ht⟩ := List.sorted_cons.mp hs
    by_cases hpa : p a = true
    · rw [List.find?_cons_of_pos _ hpa] at hf
      cases hf
      rcases List.mem_cons.mp he' with rfl | he'
      · exact le_refl _
      · exact ha e' he'
    · rw [List.find?_cons_of_neg _ hpa] at hf
      rcases List.mem_cons.mp he' with rfl | he'
      · exact absurd hp hpa
      · exact ih ht hf e' he' hp

/-- Every `series_id` occurring in the frame owns at least one row of the
grouped-and-summed frame. -/
theorem exists_groupSums_row {rows : List TSRecord} {sid : String}
    (h : sid ∈ rows.map TSRecord.series_id) :
    ∃ e ∈ groupSums rows, e.1 = sid := by
  obtain ⟨r, hr, rfl⟩ := List.mem_map.mp h
  have hk : rowKey r ∈ groupKeys rows :=
    List.mem_dedup.mpr (List.mem_map_of_mem _ hr)
  exact ⟨((rowKey r).1, (rowKey r).2, groupSum rows (rowKey r)),
    List.mem_map_of_mem _ hk, rfl⟩

/-- Every row of the grouped-and-summed frame carries the sum of its own
group, and its key occurs in the original frame. -/
theorem groupSums_mem_spec {rows : List TSRecord} {e : String × Int × ℚ}
    (he : e ∈ groupSums rows) :
    e.2.2 = groupSum rows (e.1, e.2.1) ∧ (e.1, e.2.1) ∈ rows.map rowKey := by
  obtain ⟨k, hk, rfl⟩ := List.mem_map.mp he
  exact ⟨rfl, by simpa using List.mem_dedup.mp hk⟩

/-- `filterMap` over a function that answers every listed key with a row whose
first component is that key projects back onto the key list. -/
theorem map_fst_filterMap_eq {f : String → Option (String × Int × ℚ)} :
    ∀ {sids : List String}, (∀ sid ∈ sids, ∃ e, f sid = some e ∧ e.1 = sid) →
      (sids.filterMap f).map (fun e => e.1) = sids := by
  intro sids
  induction sids with
  | nil => simp
  | cons a t ih =>
    intro h
    obtain ⟨e, hfa, he1⟩ := h a (by simp)
    simp only [List.filterMap_cons, hfa, List.map_cons, he1]
    exact congrArg (a :: ·) (ih fun s hs => h s (by simp [hs]))

/-- For every `series_id` of the frame, scanning the value-descending frame
finds a first row of that series. -/
theorem find?_sortedSums {rows : List TSRecord} {sid : String}
    (h : sid ∈ rows.map TSRecord.series_id) :
    ∃ e, (sortedSums rows).find? (fun e => e.1 = sid) = some e ∧ e.1 = sid := by
  obtain ⟨e₀, he₀, he₀1⟩ := exists_groupSums_row h
  have hmem : e₀ ∈ sortedSums rows := (List.mem_insertionSort valGe).mpr he₀
  have hsome : ((sortedSums rows).find? (fun e => e.1 = sid)).isSome :=
    List.find?_isSome.mpr ⟨e₀, hmem, by simp [he₀1]⟩
  obtain ⟨e, he⟩ := Option.isSome_iff_exists.mp hsome
  exact ⟨e, he, by simpa using List.find?_some he⟩

/-- **C2** — `best_years` has exactly one entry per distinct `series_id` of
the frame; each entry carries the summed value of its own `(series_id, year)`
group, names a year actually present for that series, and its sum is maximal
among all years of that series; and on the spec's scenario 3 the entry for
`"S1"` reports year 2021 (summed value 10). -/
theorem best_years_spec_C2 (rows : List TSRecord) (pop : List PopRecord) :
    (∀ sid : String,
      (((analyze_data rows pop).best_years).map (fun e => e.1)).count sid =
        if sid ∈ rows.map TSRecord.series_id then 1 else 0)
    ∧ (∀ e ∈ (analyze_data rows pop).best_years,
        e.2.2 = groupSum rows (e.1, e.2.1)
        ∧ (e.1, e.2.1) ∈ rows.map rowKey
        ∧ ∀ y : Int, (e.1, y) ∈ rows.map rowKey → groupSum rows (e.1, y) ≤ e.2.2)
    ∧ (analyze_data [⟨"S1", 2020, "Q01", 5⟩, ⟨"S1", 2021, "Q01", 10⟩] pop).best_years
        = [("S1", 2021, 10)] := by
  have hby : (analyze_data rows pop).best_years = best_years rows := by
    simp [analyze_data, cleanData_eq_id]
  refine ⟨?_, ?_, ?_⟩
  · intro sid
    have hmap : ((best_years rows).map (fun e => e.1)) = (rows.map TSRecord.series_id).dedup :=
      map_fst_filterMap_eq fun s hs => find?_sortedSums (List.mem_dedup.mp hs)
    rw [hby, hmap, List.count_dedup]
  · intro e he
    rw [hby] at he
    obtain ⟨sid, hsid, hfind⟩ := List.mem_filterMap.mp he
    have hesid : e.1 = sid := by simpa using List.find?_some hfind
    have hes : e ∈ sortedSums rows := List.mem_of_find?_eq_some hfind
    have heg : e ∈ groupSums rows := (List.mem_insertionSort valGe).mp hes
    obtain ⟨hsum, hkey⟩ := groupSums_mem_spec heg
    refine ⟨hsum, hkey, ?_⟩
    intro y hy
    have hkg : ((e.1, y) : String × Int) ∈ groupKeys rows := List.mem_dedup.mpr hy
    have he' : (e.1, y, groupSum rows (e.1, y)) ∈ groupSums rows :=
      List.mem_map_of_mem _ hkg
    have he's : (e.1, y, groupSum rows (e.1, y)) ∈ sortedSums rows :=
      (List.mem_insertionSort valGe).mpr he'
    have hmax := find?_max_of_sorted (List.sorted_insertionSort valGe (groupSums rows))
      hfind (e.1, y, groupSum rows (e.1, y)) he's (by simp [hesid])
    simpa using hmax
  · simp only [analyze_data, cleanData_eq_id]
    norm_num [best_years, sortedSums, groupSums, groupKeys, groupSum, rowKey,
      List.insertionSort, List.orderedInsert, valGe, List.dedup_nil,
      List.dedup_cons_of_mem, List.dedup_cons_of_not_mem, List.find?,
      List.filterMap_cons, List.filterMap_nil]

/-- Witness for C2: in scenario 3 the summed value of `("S1", 2020)` does not
exceed the summed value reported for the best year of `"S1"`. -/
theorem best_years_spec_C2_witness :
    groupSum [⟨"S1", 2020, "Q01", 5⟩, ⟨"S1", 2021, "Q01", 10⟩] ("S1", 2020) ≤ (10 : ℚ) := by
  have h := (best_years_spec_C2 [⟨"S1", 2020, "Q01", 5⟩, ⟨"S1", 2021, "Q01", 10⟩] []).2.1
    ("S1", 2021, 10)
  have hmem : (("S1", 2021, (10 : ℚ)) : String × Int × ℚ) ∈
      (analyze_data [⟨"S1", 2020, "Q01", 5⟩, ⟨"S1", 2021, "Q01", 10⟩] []).best_years := by
    rw [(best_years_spec_C2 [⟨"S1", 2020, "Q01", 5⟩, ⟨"S1", 2021, "Q01", 10⟩] []).2.2]
    simp
  exact (h hmem).2.2 2020 (by simp [rowKey])

/-! ## C3: combined report -/

/-- Every row of a left merge stems from a left-frame row whose four columns it
copies, and its `population` column is `none` exactly on an empty match set. -/
theorem mem_leftJoinPop {rows : List TSRecord} {pop : List PopRecord} {j : JoinedRow}
    (hj : j ∈ leftJoinPop rows pop) :
    ∃ r ∈ rows, j.series_id = r.series_id ∧ j.year = r.year ∧ j.period = r.period
      ∧ j.value = r.value
      ∧ ((j.population = none ∧ pop.filter (fun p => p.year = r.year) = [])
        ∨ ∃ p ∈ pop, p.year = r.year ∧ j.population = some p.population) := by
  obtain ⟨r, hr, hjr⟩ := List.mem_flatMap.mp hj
  refine ⟨r, hr, ?_⟩
  cases h : pop.filter (fun p => p.year = r.year) with
  | nil =>
    rw [h] at hjr
    simp only [List.mem_singleton] at hjr
    subst hjr
    exact ⟨rfl, rfl, rfl, rfl, Or.inl ⟨rfl, rfl⟩⟩
  | cons m ms =>
    rw [h] at hjr
    simp only [List.mem_map] at hjr
    obtain ⟨p, hp, rfl⟩ := hjr
    have hpf := List.mem_filter.mp (h ▸ hp)
    exact ⟨rfl, rfl, rfl, rfl, Or.inr ⟨p, hpf.1, by simpa using hpf.2, rfl⟩⟩

/-- Every left-frame row produces at least one merged row copying its four
columns. -/
theorem leftJoinPop_exists {rows : List TSRecord} {pop : List PopRecord} {r : TSRecord}
    (hr : r ∈ rows) :
    ∃ j ∈ leftJoinPop rows pop, j.series_id = r.series_id ∧ j.year = r.year
      ∧ j.period = r.period ∧ j.value = r.value := by
  cases h : pop.filter (fun p => p.year = r.year) with
  | nil =>
    refine ⟨⟨r.series_id, r.year, r.period, r.value, none⟩, ?_, rfl, rfl, rfl, rfl⟩
    exact List.mem_flatMap.mpr ⟨r, hr, by rw [h]; simp⟩
  | cons m ms =>
    refine ⟨⟨r.series_id, r.year, r.period, r.value, some m.population⟩, ?_, rfl, rfl, rfl, rfl⟩
    exact List.mem_flatMap.mpr ⟨r, hr, by rw [h]; simp⟩

/-- **C3** — `combined_report` consists of exactly the rows with
`series_id = "PRS30006032"` and `period = "Q01"` (every resulting row
satisfies both equalities, and every input row satisfying them contributes a
resulting row copying its columns), left-joined against the population frame
on `year`: the `population` column is absent precisely when no population
record shares the row's year, and any joined value comes from a population
record of that year. -/
theorem combined_report_spec_C3 (rows : List TSRecord) (pop : List PopRecord) :
    (∀ j ∈ (analyze_data rows pop).combined_report,
        j.series_id = "PRS30006032" ∧ j.period = "Q01")
    ∧ (∀ r ∈ rows, r.series_id = "PRS30006032" → r.period = "Q01" →
        ∃ j ∈ (analyze_data rows pop).combined_report,
          j.series_id = r.series_id ∧ j.year = r.year ∧ j.period = r.period
          ∧ j.value = r.value)
    ∧ (∀ j ∈ (analyze_data rows pop).combined_report,
        (j.population = none ↔ ∀ p ∈ pop, p.year ≠ j.year)
        ∧ ∀ q, j.population = some q → ∃ p ∈ pop, p.year = j.year
          ∧ p.population = q) := by
  have hcr : (analyze_data rows pop).combined_report = leftJoinPop (combinedFilter rows) pop := by
    simp [analyze_data, cleanData_eq_id, combined_report]
  refine ⟨?_, ?_, ?_⟩
  · intro j hj
    rw [hcr] at hj
    obtain ⟨r, hr, h1, _, h3, _, _⟩ := mem_leftJoinPop hj
    have hf := List.mem_filter.mp hr
    simp only [Bool.and_eq_true, decide_eq_true_eq] at hf
    exact ⟨h1 ▸ hf.2.1, h3 ▸ hf.2.2⟩
  · intro r hr h1 h2
    have hrf : r ∈ combinedFilter rows :=
      List.mem_filter.mpr ⟨hr, by simp [h1, h2]⟩
    obtain ⟨j, hj, hls⟩ := @leftJoinPop_exists (combinedFilter rows) pop r hrf
    exact ⟨j, hcr ▸ hj, hls⟩
  · intro j hj
    rw [hcr] at hj
    obtain ⟨r, _, _, hyear, _, _, hpop⟩ := mem_leftJoinPop hj
    rcases hpop with ⟨hnone, hfil⟩ | ⟨p, hp, hpy, hsome⟩
    · have hall : ∀ p ∈ pop, p.year ≠ j.year := by
        intro p hp
        have := List.filter_eq_nil_iff.mp hfil p hp
        rw [hyear]
        simpa using this
      refine ⟨?_, ?_⟩
      · rw [hnone]
        exact iff_of_true rfl hall
      · intro q hq
        rw [hnone] at hq
        exact absurd hq (by simp)
    · have hpj : p.year = j.year := hpy.trans hyear.symm
      refine ⟨?_, ?_⟩
      · rw [hsome]
        exact iff_of_false (by simp) fun hforall => absurd hpj (hforall p hp)
      · intro q hq
        rw [hsome] at hq
        refine ⟨p, hp, hpj, ?_⟩
        injection hq

/-- Witness for C3: in a one-row frame matching the filter, the merged report
contains a row copying that row's columns. -/
theorem combined_report_spec_C3_witness :
    ∃ j ∈ (analyze_data [⟨"PRS30006032", 2014, "Q01", 5⟩] [⟨2014, 100⟩]).combined_report,
      j.series_id = "PRS30006032" ∧ j.year = 2014 ∧ j.period = "Q01" ∧ j.value = 5 :=
  (combined_report_spec_C3 [⟨"PRS30006032", 2014, "Q01", 5⟩] [⟨2014, 100⟩]).2.1
    ⟨"PRS30006032", 2014, "Q01", 5⟩ (by simp) rfl rfl

/-! ## C5 and C8: time-series sync -/

/-- Closed form of one `sync_bls_data` invocation against a healthy store:
the write happens exactly when the key is absent or holds different bytes. -/
theorem sync_bls_data_eq (cur : Bytes) (store : Option Bytes) :
    sync_bls_data cur store =
      if store = some cur then .ok ⟨store, 0, true⟩ else .ok ⟨some cur, 1, false⟩ := by
  rcases store with _ | b
  · simp [sync_bls_data, sync_bls_step, storeGet, Except.map]
  · by_cases hb : b = cur
    · subst hb
      simp [sync_bls_data, sync_bls_step, storeGet, Except.map]
    · simp [sync_bls_data, sync_bls_step, storeGet, Except.map, hb]

/-- **C5** (amended) — `sync_bls_data` writes iff the fetched bytes differ
from the stored blob or no blob is stored, performing at most one write per
invocation; a second call with an unchanged origin payload is a no-op that
reports "already up to date", so two calls perform at most one write in total
— exactly one when the store did not already hold the origin payload (when it
did, both calls are no-ops and the total is zero). -/
theorem sync_bls_change_detection_C5 (cur : Bytes) (store : Option Bytes) :
    (store = some cur → sync_bls_data cur store = .ok ⟨store, 0, true⟩)
    ∧ (store ≠ some cur → sync_bls_data cur store = .ok ⟨some cur, 1, false⟩)
    ∧ (∀ o, sync_bls_data cur store = .ok o → o.writes ≤ 1 ∧ o.store = some cur)
    ∧ (∀ o1 o2, sync_bls_twice cur store = .ok (o1, o2) →
        o2.writes = 0 ∧ o2.upToDate = true ∧ o1.writes + o2.writes ≤ 1
        ∧ (store ≠ some cur → o1.writes + o2.writes = 1)) := by
  have heq := sync_bls_data_eq cur store
  by_cases hsc : store = some cur
  · rw [if_pos hsc] at heq
    have htw : sync_bls_twice cur store = .ok (⟨store, 0, true⟩, ⟨store, 0, true⟩) := by
      rw [sync_bls_twice, heq]
      simp [hsc, sync_bls_data_eq, Except.map]
    refine ⟨fun _ => heq, fun h => absurd hsc h, ?_, ?_⟩
    · intro o h
      rw [heq] at h
      injection h with h
      subst h
      exact ⟨Nat.zero_le 1, hsc ▸ rfl⟩
    · intro o1 o2 h
      rw [htw] at h
      injection h with h
      obtain ⟨rfl, rfl⟩ := Prod.mk.injEq .. ▸ h
      exact ⟨rfl, rfl, Nat.zero_le 1, fun hne => absurd hsc hne⟩
  · rw [if_neg hsc] at heq
    have htw : sync_bls_twice cur store = .ok (⟨some cur, 1, false⟩, ⟨some cur, 0, true⟩) := by
      rw [sync_bls_twice, heq]
      simp [sync_bls_data_eq, Except.map]
    refine ⟨fun h => absurd h hsc, fun _ => heq, ?_, ?_⟩
    · intro o h
      rw [heq] at h
      injection h with h
      subst h
      exact ⟨Nat.le_refl 1, rfl⟩
    · intro o1 o2 h
      rw [htw] at h
      injection h with h
      obtain ⟨rfl, rfl⟩ := Prod.mk.injEq .. ▸ h
      exact ⟨rfl, rfl, Nat.le_refl 1, fun _ => rfl⟩

/-- Witness for C5 (amended): with an empty store the first call writes. -/
theorem sync_bls_change_detection_C5_witness :
    sync_bls_data [1] none = .ok ⟨some [1], 1, false⟩ :=
  (sync_bls_change_detection_C5 [1] none).2.1 (by simp)

/-- Counterexample to C5 as stated: when the stored blob already equals the
origin payload, two calls with the unchanged payload perform zero writes in
total, not exactly one. -/
theorem sync_bls_twice_cex_C5 :
    sync_bls_twice [7] (some [7]) = .ok (⟨some [7], 0, true⟩, ⟨some [7], 0, true⟩)
    ∧ (0 + 0 : Nat) ≠ 1 :=
  ⟨rfl, by decide⟩

/-- **C8** — the `NoSuchKey` retrieval outcome is a normal branch of
`sync_bls_data`: the operation succeeds and proceeds to write the fetched
bytes (against a healthy empty store: one write storing exactly the fetched
bytes); a `ClientError` with any other code is re-raised and propagates. -/
theorem sync_bls_error_paths_C8 (cur : Bytes) (m : String) :
    sync_bls_step cur .noSuchKey = .ok ⟨true, false⟩
    ∧ sync_bls_data cur none = .ok ⟨some cur, 1, false⟩
    ∧ sync_bls_step cur (.clientError m) = .error m :=
  ⟨rfl, rfl, rfl⟩

/-! ## C6 and C7: the entry point -/

/-- Counterexample to C6 as stated: the dispatcher tests only the presence of
the `Records` key, so a trigger carrying an *empty* record batch runs the
Analysis path although it carries no nonempty batch (the claim requires the
Sync path for such a trigger). -/
theorem dispatch_empty_batch_cex_C6 :
    dispatchPath ⟨some []⟩ = HandlerPath.analysis
    ∧ ¬ ∃ b : List String, (Event.mk (some [])).records = some b ∧ b ≠ [] := by
  refine ⟨rfl, ?_⟩
  rintro ⟨b, hb, hne⟩
  injection hb with hb
  exact hne hb.symm

/-- **C6** (amended) — the Analysis path runs iff the trigger event carries
the record-batch key at all (even with an empty batch); any other trigger runs
the Sync path, which invokes the time-series sync first and, when it does not
raise, the population sync second. -/
theorem dispatch_spec_C6 (e : Event) (f : Bool) :
    (dispatchPath e = HandlerPath.analysis ↔ e.records.isSome = true)
    ∧ (dispatchPath e = HandlerPath.sync ↔ e.records = none)
    ∧ (e.records = none → invokedOps e false = [Op.syncBlsOp, Op.fetchPopOp])
    ∧ (e.records = none → (invokedOps e f).head? = some Op.syncBlsOp) := by
  rcases e with ⟨_ | b⟩
  · exact ⟨by simp [dispatchPath], by simp [dispatchPath], fun _ => rfl,
      fun _ => by cases f <;> rfl⟩
  · exact ⟨by simp [dispatchPath], by simp [dispatchPath],
      fun h => by simp at h, fun h => by simp at h⟩

/-- Witness for C6 (amended): a keyless trigger runs both syncs in order. -/
theorem dispatch_spec_C6_witness :
    invokedOps ⟨none⟩ false = [Op.syncBlsOp, Op.fetchPopOp] :=
  (dispatch_spec_C6 ⟨none⟩ false).2.2.1 rfl

/-- **C7** — `lambda_handler` always answers with one of the two envelopes
(status 200 or 500), with 500 exactly when the body is the `error` field: on
the Analysis path a successful analysis yields `{200, result}` and a raised
analysis error yields `{500, error}`; on the Sync path two successful syncs
yield `{200, "Sync completed successfully"}` while an error raised by either
sync (the second is not reached when the first raises) yields `{500, error}`.
Every propagated failure is caught and converted; none escapes. -/
theorem lambda_handler_envelope_C7 (e : Event) (a : Except String AnalysisOut)
    (s p : Except String Unit) :
    ((lambda_handler e a s p).statusCode = 200 ∨ (lambda_handler e a s p).statusCode = 500)
    ∧ ((lambda_handler e a s p).statusCode = 500 ↔
        ∃ m, (lambda_handler e a s p).body = RespBody.errorField m)
    ∧ (∀ r, e.records.isSome = true → a = .ok r →
        lambda_handler e a s p = ⟨200, RespBody.result r⟩)
    ∧ (∀ m, e.records.isSome = true → a = .error m →
        lambda_handler e a s p = ⟨500, RespBody.errorField m⟩)
    ∧ (e.records = none → s = .ok () → p = .ok () →
        lambda_handler e a s p = ⟨200, RespBody.message "Sync completed successfully"⟩)
    ∧ (∀ m, e.records = none → (s = .error m ∨ (s = .ok () ∧ p = .error m)) →
        lambda_handler e a s p = ⟨500, RespBody.errorField m⟩) := by
  rcases e with ⟨_ | b⟩ <;> rcases a with m | r <;> rcases s with ms | ⟨⟩ <;>
    rcases p with mp | ⟨⟩ <;> simp [lambda_handler]

/-- Witness for C7: a keyless trigger with both syncs succeeding gets the 200
success-message envelope. -/
theorem lambda_handler_envelope_C7_witness :
    lambda_handler ⟨none⟩ (.error "boom") (.ok ()) (.ok ()) =
      ⟨200, RespBody.message "Sync completed successfully"⟩ :=
  (lambda_handler_envelope_C7 ⟨none⟩ (.error "boom") (.ok ()) (.ok ())).2.2.2.2.1 rfl rfl rfl

/-! ## C9: population sync -/

/-- **C9** — `fetch_population_data` never reads the stored blob: whenever the
fetch parses, its first action is the unconditional overwrite of the
population key with the serialized payload (there is no change-detection — the
stored content does not even enter the operation); at most one notification is
emitted, only when the write succeeded, and its body is exactly
`{type: "population_update", timestamp: isoformat(now)}` (an ISO-8601 string);
a failed write raises before `send_message`, so no notification is sent. -/
theorem fetch_population_spec_C9 (now : DateTime) (data : List PopRecord)
    (putOk sendOk : Bool) :
    ((fetch_population_data now (.ok data) putOk sendOk).1.countP isSendAction ≤ 1)
    ∧ (putOk = false → (fetch_population_data now (.ok data) putOk sendOk).1 = [])
    ∧ (putOk = true →
        (fetch_population_data now (.ok data) putOk sendOk).1.head? =
          some (PopAction.putPop (dumpsPop data)))
    ∧ (∀ m, PopAction.sendMsg m ∈ (fetch_population_data now (.ok data) putOk sendOk).1 →
        m.type = "population_update" ∧ m.timestamp = now.isoformat
        ∧ putOk = true ∧ sendOk = true)
    ∧ (putOk = true → sendOk = true →
        (fetch_population_data now (.ok data) putOk sendOk).1 =
          [PopAction.putPop (dumpsPop data),
           PopAction.sendMsg ⟨"population_update", now.isoformat⟩]
        ∧ (fetch_population_data now (.ok data) putOk sendOk).2 = .ok ())
    ∧ (∀ m, (fetch_population_data now (.error m) putOk sendOk).1 = []) := by
  cases putOk <;> cases sendOk <;>
    simp [fetch_population_data, isSendAction, List.countP_cons, List.countP_nil]

/-- Witness for C9: with a parsed empty payload and both side effects
succeeding, the trace is the write followed by the one notification. -/
theorem fetch_population_spec_C9_witness :
    (fetch_population_data ⟨2025, 1, 2, 3, 4, 5, 0⟩ (.ok []) true true).1 =
      [PopAction.putPop (dumpsPop []),
       PopAction.sendMsg ⟨"population_update", DateTime.isoformat ⟨2025, 1, 2, 3, 4, 5, 0⟩⟩] :=
  ((fetch_population_spec_C9 ⟨2025, 1, 2, 3, 4, 5, 0⟩ [] true true).2.2.2.2.1 rfl rfl).1
